import Mathlib

/-
Verification of the browser-resource lifecycle core of SkillMint-server.

The embedded code:
  * BrowserManager            (src/services/browserManager.js)
  * JobScraperService         (first file of src/unnamed/part_005): the
    tab-pool variant with getUserTab / closeUserTab / cleanup sweep /
    getStats / searchJobsNaukari.
  * TabManager                (second file of src/unnamed/part_005):
    createUserTab / getUserTab / closeUserTab / cleanup sweep / getStats,
    built on BrowserManager.

Modelling conventions: page handles and browser handles are abstract Nat
identifiers drawn from fresh counters; `Date.now()` is an explicit `now`
argument; the outcome of the external `puppeteer.launch` is an explicit
`launchOk` flag; a JS `Map` is an association list whose `set` replaces in
place and appends new keys at the end, as `Map.prototype.set` does.  The
`disconnected` handler of both browser owners sets the browser field to
`none`, so `browser = none` covers both the uninitialized and the
disconnected states.
-/

namespace SkillMint

/-- Errors that cross the tab-pool / browser-supervisor boundary:
`invalidUser` models the `throw new Error(..)` on a missing userId,
`launchError` a rejected `puppeteer.launch`. -/
inductive Err where
  | invalidUser
  | launchError
deriving DecidableEq, Repr

/-- `Map.prototype.get` on an association list. -/
def lookupTab {α : Type} (u : String) : List (String × α) → Option α
  | [] => none
  | (v, t) :: rest => if v = u then some t else lookupTab u rest

/-- `Map.prototype.set` on an association list: replace in place if the key
is present, append at the end otherwise. -/
def setTab {α : Type} (u : String) (t : α) : List (String × α) → List (String × α)
  | [] => [(u, t)]
  | (v, tv) :: rest => if v = u then (u, t) :: rest else (v, tv) :: setTab u t rest

/-- `Map.prototype.delete` on an association list. -/
def eraseTab {α : Type} (u : String) : List (String × α) → List (String × α)
  | [] => []
  | (v, tv) :: rest => if v = u then eraseTab u rest else (v, tv) :: eraseTab u rest

/-- Key uniqueness of the pool map (a JS `Map` has unique keys; the
association-list embedding must preserve this). -/
def nodupKeys {α : Type} (l : List (String × α)) : Prop :=
  (l.map Prod.fst).Nodup

/-- `userId.substring(0, n)`: the first `n` characters of the string (the
whole string when it is shorter than `n`). -/
def substrPrefix (s : String) (n : Nat) : String := ⟨s.data.take n⟩

instance {ε α : Type} [DecidableEq ε] [DecidableEq α] :
    DecidableEq (Except ε α) := fun x y =>
  match x, y with
  | .error a, .error b =>
      if h : a = b then .isTrue (by rw [h])
      else .isFalse (fun hc => h (by injection hc))
  | .ok a, .ok b =>
      if h : a = b then .isTrue (by rw [h])
      else .isFalse (fun hc => h (by injection hc))
  | .error _, .ok _ => .isFalse (fun hc => Except.noConfusion hc)
  | .ok _, .error _ => .isFalse (fun hc => Except.noConfusion hc)

namespace BM

/-- State of BrowserManager (src/services/browserManager.js).  `browser` is
the `this.browser` field (a handle is an abstract id); `nextBrowser`
supplies fresh handle ids; `launchCount` counts completed
`puppeteer.launch` calls, so a relaunch is observable.  The registered
`disconnected` handler sets `this.browser = null`, hence `browser = none`
covers both the uninitialized and the disconnected states. -/
structure State where
  browser : Option Nat
  nextBrowser : Nat
  launchCount : Nat
deriving DecidableEq, Repr

/-- The `initialize` method of BrowserManager: if `this.browser` exists it is
returned unchanged (idempotent, no relaunch); otherwise `puppeteer.launch`
runs (its external outcome is the `launchOk` flag): on success the handle is
stored and the disconnect handler registered, on failure `this.browser`
stays `null` and the error propagates.  The `isInitializing` poll loop only
matters under interleaving and has no effect on the sequential result. -/
def initBrowser (launchOk : Bool) (s : State) : Except Err (Nat × State) :=
  match s.browser with
  | some b => .ok (b, s)
  | none =>
      if launchOk then
        .ok (s.nextBrowser,
          { browser := some s.nextBrowser
            nextBrowser := s.nextBrowser + 1
            launchCount := s.launchCount + 1 })
      else .error .launchError

/-- BrowserManager.getBrowser: `if (!this.browser) return await
this.initialize(); return this.browser;`. -/
def getBrowser (launchOk : Bool) (s : State) : Except Err (Nat × State) :=
  match s.browser with
  | some b => .ok (b, s)
  | none => initBrowser launchOk s

/-- The `disconnected` handler registered in `initialize`:
`this.browser = null`. -/
def disconnectEvent (s : State) : State :=
  { s with browser := none }

end BM

namespace JSS

/-- One value of `this.userTabs` in JobScraperService (first file of
src/unnamed/part_005): the page handle, the browser generation owning the
page (the page object holds a reference to its browser), and the
`lastUsed` / `createdAt` timestamps stored by `getUserTab`. -/
structure TabInfo where
  page : Nat
  gen : Nat
  lastUsed : Nat
  createdAt : Nat
deriving DecidableEq, Repr

/-- State of the JobScraperService singleton: browser handle and fresh-id
counters, the set of closed page ids (`page.isClosed()` reads it), and the
`userTabs` map. -/
structure State where
  browser : Option Nat
  nextBrowser : Nat
  launchCount : Nat
  nextPage : Nat
  closedPages : List Nat
  userTabs : List (String × TabInfo)
deriving DecidableEq, Repr

/-- `this.INACTIVE_TIMEOUT = 30 * 60 * 1000` (30 minutes). -/
def INACTIVE_TIMEOUT : Nat := 30 * 60 * 1000

/-- JobScraperService.initializeBrowser, sequential semantics: if
`this.isInitialized || this.browser`, return the existing browser;
otherwise `puppeteer.launch`, storing the handle and registering the
disconnect handler on success, rethrowing on failure. -/
def initializeBrowser (launchOk : Bool) (s : State) : Except Err (Nat × State) :=
  match s.browser with
  | some b => .ok (b, s)
  | none =>
      if launchOk then
        .ok (s.nextBrowser,
          { s with
              browser := some s.nextBrowser
              nextBrowser := s.nextBrowser + 1
              launchCount := s.launchCount + 1 })
      else .error .launchError

/-- JobScraperService.getBrowser: return `this.browser` when it is set and
connected (in this embedding a disconnect nulls the field, so set implies
connected), else reinitialize. -/
def getBrowser (launchOk : Bool) (s : State) : Except Err (Nat × State) :=
  match s.browser with
  | some b => .ok (b, s)
  | none => initializeBrowser launchOk s

/-- The `disconnected` handler registered in initializeBrowser: clears all
user tabs and nulls the browser handle. -/
def disconnectEvent (s : State) : State :=
  { s with browser := none, userTabs := [] }

/-- The synchronous section of getUserTab between `getBrowser` and the
first await of the creation path: `userTabs.has/get`, the
`!page.isClosed()` liveness check, the `lastUsed` bump on a live hit, the
`userTabs.delete` on a stale hit.  Yields `some page` iff the existing tab
is reused. -/
def lookupPhase (u : String) (now : Nat) (s : State) : Option Nat × State :=
  match lookupTab u s.userTabs with
  | some t =>
      if t.page ∈ s.closedPages then
        (none, { s with userTabs := eraseTab u s.userTabs })
      else
        (some t.page,
         { s with userTabs := setTab u { t with lastUsed := now } s.userTabs })
  | none => (none, s)

/-- `await browser.newPage()`: allocate a fresh page handle. -/
def newPagePhase (s : State) : Nat × State :=
  (s.nextPage, { s with nextPage := s.nextPage + 1 })

/-- The tail of the creation path after `setViewport` / `setUserAgent`
(neither touches the pool): `this.userTabs.set(userId, { page, lastUsed:
Date.now(), createdAt: Date.now() })`. -/
def insertPhase (u : String) (p g now : Nat) (s : State) : State :=
  { s with userTabs :=
      setTab u { page := p, gen := g, lastUsed := now, createdAt := now } s.userTabs }

/-- JobScraperService.getUserTab, sequential (uninterleaved) semantics,
composed from the phases above in source order: reject a missing userId,
get the browser, reuse a live existing tab, else create and store a new
page. -/
def getUserTab (u : String) (now : Nat) (launchOk : Bool) (s : State) :
    Except Err (Nat × State) :=
  if u = "" then .error .invalidUser
  else
    match getBrowser launchOk s with
    | .error e => .error e
    | .ok (b, s1) =>
        match lookupPhase u now s1 with
        | (some p, s2) => .ok (p, s2)
        | (none, s2) =>
            let ps := newPagePhase s2
            .ok (ps.1, insertPhase u ps.1 b now ps.2)

/-- `await page.close()`: succeeds when the page still belongs to the live
browser and is not already closed; rejects otherwise. -/
def pageClose (t : TabInfo) (s : State) : Except Unit State :=
  if s.browser = some t.gen ∧ t.page ∉ s.closedPages then
    .ok { s with closedPages := t.page :: s.closedPages }
  else .error ()

/-- JobScraperService.closeUserTab: when the user has an entry, try to close
the page if `!page.isClosed()` (a close error is caught and only logged),
then delete the map entry unconditionally; without an entry it is a no-op.
Total: no error ever propagates to the caller. -/
def closeUserTab (u : String) (s : State) : State :=
  match lookupTab u s.userTabs with
  | none => s
  | some t =>
      let s1 := if t.page ∈ s.closedPages then s
                else
                  match pageClose t s with
                  | .ok sc => sc
                  | .error _ => s
      { s1 with userTabs := eraseTab u s1.userTabs }

/-- Close each user of a list in order via closeUserTab (the
`inactiveTabs.forEach(userId => this.closeUserTab(userId))` loop). -/
def closeMany (l : List String) (s : State) : State :=
  l.foldl (fun acc u => closeUserTab u acc) s

/-- The body of the `setInterval` callback installed by
startCleanupInterval: collect the userIds whose
`now - lastUsed > INACTIVE_TIMEOUT`, then close each via closeUserTab. -/
def cleanupInactiveTabs (now : Nat) (s : State) : State :=
  closeMany
    ((s.userTabs.filter (fun e => decide (INACTIVE_TIMEOUT < now - e.2.lastUsed))).map Prod.fst)
    s

/-- The identifier-bearing part of JobScraperService.getStats:
`totalUsers` and the `userId.substring(0, 8) + '...'` list (the timestamp
strings carry no identifier data and are omitted). -/
structure Stats where
  totalUsers : Nat
  users : List String
deriving DecidableEq, Repr

/-- JobScraperService.getStats. -/
def getStats (s : State) : Stats :=
  { totalUsers := s.userTabs.length
    users := s.userTabs.map (fun e => substrPrefix e.1 8 ++ "...") }

/-- Two concurrent getUserTab calls for the same userId with the browser
already launched (handle `b`), interleaved at the await points of the
source.  `userTabs.set` runs only after the awaits on `browser.newPage()`,
`page.setViewport` and `page.setUserAgent`, so the following event-loop
schedule is legal: caller A runs its lookup section and starts `newPage`;
while A awaits, caller B runs its lookup section (A has not yet stored an
entry) and its own `newPage`; A then stores and returns its page; B then
stores (overwriting the entry of A) and returns its page.  Returns the page
of A, the page of B and the final state.  The branches where a lookup hits
keep the callers sequential, so the definition is total over all states. -/
def concurrentAcquire (u : String) (now b : Nat) (s : State) : Nat × Nat × State :=
  match lookupPhase u now s with
  | (some p, s1) =>
      match lookupPhase u now s1 with
      | (some q, s2) => (p, q, s2)
      | (none, s2) =>
          let qs := newPagePhase s2
          (p, qs.1, insertPhase u qs.1 b now qs.2)
  | (none, s1) =>
      let ps := newPagePhase s1
      match lookupPhase u now ps.2 with
      | (some q, s3) => (ps.1, q, insertPhase u ps.1 b now s3)
      | (none, s3) =>
          let qs := newPagePhase s3
          let s5 := insertPhase u ps.1 b now qs.2
          (ps.1, qs.1, insertPhase u qs.1 b now s5)

/-- A scraped job row as assembled in the `page.evaluate` extraction
callback (only the fields needed to distinguish results are kept). -/
structure Job where
  title : String
  company : String
deriving DecidableEq, Repr

/-- The remainder of the try block of searchJobsNaukari once the tab is
acquired, together with the catch: navigation, form filling and extraction
happen against the acquired page in the external world and their combined
outcome is the `scrape` argument; a failure is caught and resolves to the
empty list, a success bumps the lastUsed stamp of the entry (when still
present) and yields the scraped jobs.  The page handle is `p` (the external
steps run against it; it does not influence the pool update). -/
def searchBody (u : String) (now : Nat) (scrape : Except Unit (List Job))
    (p : Nat) (s1 : State) : Except Err (List Job) × State :=
  match scrape with
  | .error _ => (.ok [], s1)
  | .ok jobs =>
      match lookupTab u s1.userTabs with
      | some t =>
          (.ok jobs,
           { s1 with userTabs := setTab u { t with lastUsed := now } s1.userTabs })
      | none => (.ok jobs, s1)

/-- JobScraperService.searchJobsNaukari (the part_005 variant with a
userId): the missing-userId guard throws before the try block; from
getUserTab on everything runs inside `try { .. } catch { return [] }`, so
an acquisition failure (browser launch failure included) also resolves to
the empty list. -/
def searchJobsNaukari (u : String) (now : Nat) (launchOk : Bool)
    (scrape : Except Unit (List Job)) (s : State) :
    Except Err (List Job) × State :=
  if u = "" then (.error .invalidUser, s)
  else
    match getUserTab u now launchOk s with
    | .error _ => (.ok [], s)
    | .ok ps => searchBody u now scrape ps.1 ps.2

end JSS

namespace TM

/-- One value of `this.userTabs` in TabManager (second file of
src/unnamed/part_005): the page handle, the browser generation owning the
page, and the `lastUsed` timestamp.  TabManager stores no `createdAt`. -/
structure TabInfo where
  page : Nat
  gen : Nat
  lastUsed : Nat
deriving DecidableEq, Repr

/-- State of the TabManager singleton together with the BrowserManager it
requires. -/
structure State where
  bm : BM.State
  nextPage : Nat
  closedPages : List Nat
  userTabs : List (String × TabInfo)
deriving DecidableEq, Repr

/-- `await userTab.page.evaluate(() => true)` succeeds iff the page is
still open and its owning browser is still the connected one. -/
def pageEvalOk (s : State) (t : TabInfo) : Bool :=
  decide (t.page ∉ s.closedPages ∧ s.bm.browser = some t.gen)

/-- `await page.close()` for TabManager: succeeds when the page belongs to
the live browser and is not already closed; rejects otherwise. -/
def pageClose (t : TabInfo) (s : State) : Except Unit State :=
  if s.bm.browser = some t.gen ∧ t.page ∉ s.closedPages then
    .ok { s with closedPages := t.page :: s.closedPages }
  else .error ()

/-- TabManager.closeUserTab: when the user has an entry, `await
page.close()`; on success and on a caught error alike the map entry is
deleted; without an entry it is a no-op.  Total: no error propagates. -/
def closeUserTab (u : String) (s : State) : State :=
  match lookupTab u s.userTabs with
  | none => s
  | some t =>
      match pageClose t s with
      | .ok sc => { sc with userTabs := eraseTab u sc.userTabs }
      | .error _ => { s with userTabs := eraseTab u s.userTabs }

/-- TabManager.createUserTab: close any existing tab for the user, get the
browser from BrowserManager (relaunching if needed; a launch failure is
rethrown), `browser.newPage()` with fixed viewport and user agent, store
`{ page, lastUsed: Date.now() }` and return the page. -/
def createUserTab (u : String) (now : Nat) (launchOk : Bool) (s : State) :
    Except Err (Nat × State) :=
  let s1 := closeUserTab u s
  match BM.getBrowser launchOk s1.bm with
  | .error e => .error e
  | .ok (b, bm1) =>
      .ok (s1.nextPage,
        { s1 with
            bm := bm1
            nextPage := s1.nextPage + 1
            userTabs :=
              setTab u { page := s1.nextPage, gen := b, lastUsed := now } s1.userTabs })

/-- TabManager.getUserTab: probe an existing entry with
`evaluate(() => true)`; if the probe succeeds, bump `lastUsed` and return
the page; if it throws, delete the entry and fall through to
createUserTab; without an entry, createUserTab directly.  Note: no userId
validation of any kind. -/
def getUserTab (u : String) (now : Nat) (launchOk : Bool) (s : State) :
    Except Err (Nat × State) :=
  match lookupTab u s.userTabs with
  | some t =>
      if pageEvalOk s t then
        .ok (t.page,
          { s with userTabs := setTab u { t with lastUsed := now } s.userTabs })
      else
        createUserTab u now launchOk { s with userTabs := eraseTab u s.userTabs }
  | none => createUserTab u now launchOk s

/-- `maxInactiveTime = 60 * 60 * 1000` (1 hour) in cleanupInactiveTabs. -/
def maxInactiveTime : Nat := 60 * 60 * 1000

/-- Close each user of a list in order via closeUserTab (the
`for (const [userId, userTab] of ...)` loop body applied to the stale
entries). -/
def closeMany (l : List String) (s : State) : State :=
  l.foldl (fun acc u => closeUserTab u acc) s

/-- TabManager.cleanupInactiveTabs: close every entry whose
`now - lastUsed > maxInactiveTime` via closeUserTab. -/
def cleanupInactiveTabs (now : Nat) (s : State) : State :=
  closeMany
    ((s.userTabs.filter (fun e => decide (maxInactiveTime < now - e.2.lastUsed))).map Prod.fst)
    s

/-- TabManager.getStats: `activeTabs` and the `id.substring(0, 8)` list. -/
structure Stats where
  activeTabs : Nat
  users : List String
deriving DecidableEq, Repr

/-- TabManager.getStats. -/
def getStats (s : State) : Stats :=
  { activeTabs := s.userTabs.length
    users := s.userTabs.map (fun e => substrPrefix e.1 8) }

end TM

/-- A BrowserManager state with a live browser handle 0. -/
def bmReady : BM.State := { browser := some 0, nextBrowser := 1, launchCount := 1 }

/-- A BrowserManager state with no browser (uninitialized or after a
disconnect). -/
def bmDown : BM.State := { browser := none, nextBrowser := 1, launchCount := 1 }

/-- A JobScraperService state with a launched browser and an empty pool. -/
def emptyPoolState : JSS.State :=
  { browser := some 0, nextBrowser := 1, launchCount := 1, nextPage := 0,
    closedPages := [], userTabs := [] }

/-- A JobScraperService state with one live tab for user-0001. -/
def jssOneTab : JSS.State :=
  { browser := some 0, nextBrowser := 1, launchCount := 1, nextPage := 1,
    closedPages := [],
    userTabs := [("user-0001", { page := 0, gen := 0, lastUsed := 10, createdAt := 10 })] }

/-- A JobScraperService state whose only entry holds an already-closed
page. -/
def jssStaleTab : JSS.State :=
  { browser := some 0, nextBrowser := 1, launchCount := 1, nextPage := 1,
    closedPages := [0],
    userTabs := [("user-0001", { page := 0, gen := 0, lastUsed := 10, createdAt := 10 })] }

/-- A TabManager state with a launched browser and an empty pool. -/
def tmEmptyState : TM.State :=
  { bm := bmReady, nextPage := 0, closedPages := [], userTabs := [] }

/-- A TabManager state with one live tab for user-0001. -/
def tmOneTab : TM.State :=
  { bm := bmReady, nextPage := 1, closedPages := [],
    userTabs := [("user-0001", { page := 0, gen := 0, lastUsed := 10 })] }

/-- A TabManager state holding a tab for the three-character userId abc. -/
def tmShortIdState : TM.State :=
  { bm := bmReady, nextPage := 1, closedPages := [],
    userTabs := [("abc", { page := 0, gen := 0, lastUsed := 0 })] }

/-- A TabManager state holding a tab for a twelve-character userId. -/
def tmLongIdState : TM.State :=
  { bm := bmReady, nextPage := 1, closedPages := [],
    userTabs := [("abcdefghijkl", { page := 0, gen := 0, lastUsed := 0 })] }

/-- The TabManager state produced by acquiring a tab for the empty userId
on tmEmptyState: one page allocated, one entry keyed by the empty
string. -/
def tmEmptyAfterEmptyAcquire : TM.State :=
  { bm := bmReady, nextPage := 1, closedPages := [],
    userTabs := [("", { page := 0, gen := 0, lastUsed := 500 })] }

theorem lookupTab_setTab_self {α : Type} (u : String) (t : α)
    (l : List (String × α)) : lookupTab u (setTab u t l) = some t := by
  induction l with
  | nil => simp [setTab, lookupTab]
  | cons hd tl ih =>
      obtain ⟨w, tw⟩ := hd
      by_cases h : w = u
      · simp [setTab, lookupTab, h]
      · simp [setTab, lookupTab, h, ih]

theorem lookupTab_setTab_ne {α : Type} {v u : String} (h : v ≠ u) (t : α)
    (l : List (String × α)) : lookupTab v (setTab u t l) = lookupTab v l := by
  induction l with
  | nil => simp [setTab, lookupTab, Ne.symm h]
  | cons hd tl ih =>
      obtain ⟨w, tw⟩ := hd
      by_cases hh : w = u
      · simp [setTab, lookupTab, hh, Ne.symm h]
      · by_cases hv : w = v
        · simp [setTab, lookupTab, hh, hv, h]
        · simp [setTab, lookupTab, hh, hv, ih]

theorem lookupTab_eraseTab_self {α : Type} (u : String)
    (l : List (String × α)) : lookupTab u (eraseTab u l) = none := by
  induction l with
  | nil => simp [eraseTab, lookupTab]
  | cons hd tl ih =>
      obtain ⟨w, tw⟩ := hd
      by_cases h : w = u
      · simp [eraseTab, h, ih]
      · simp [eraseTab, lookupTab, h, ih]

theorem lookupTab_eraseTab_ne {α : Type} {v u : String} (h : v ≠ u)
    (l : List (String × α)) : lookupTab v (eraseTab u l) = lookupTab v l := by
  induction l with
  | nil => simp [eraseTab]
  | cons hd tl ih =>
      obtain ⟨w, tw⟩ := hd
      by_cases hh : w = u
      · have hwv : ¬ w = v := by rw [hh]; exact Ne.symm h
        simp [eraseTab, lookupTab, hh, hwv, Ne.symm h, ih]
      · by_cases hv : w = v
        · simp [eraseTab, lookupTab, hh, hv, h]
        · simp [eraseTab, lookupTab, hh, hv, ih]

theorem mem_of_lookupTab {α : Type} {u : String} {t : α}
    {l : List (String × α)} (h : lookupTab u l = some t) : (u, t) ∈ l := by
  induction l with
  | nil => simp [lookupTab] at h
  | cons hd tl ih =>
      obtain ⟨w, tw⟩ := hd
      by_cases hh : w = u
      · subst hh
        rw [lookupTab, if_pos rfl] at h
        cases h
        exact List.mem_cons_self _ _
      · rw [lookupTab, if_neg hh] at h
        exact List.mem_cons_of_mem _ (ih h)

theorem keys_setTab {α : Type} (u : String) (t : α) :
    ∀ l : List (String × α),
      (setTab u t l).map Prod.fst =
        if u ∈ l.map Prod.fst then l.map Prod.fst
        else l.map Prod.fst ++ [u] := by
  intro l
  induction l with
  | nil => simp [setTab]
  | cons hd tl ih =>
      obtain ⟨w, tw⟩ := hd
      by_cases hh : w = u
      · simp [setTab, hh]
      · by_cases hu : u ∈ tl.map Prod.fst
        · simp [setTab, hh, Ne.symm hh, hu, ih]
        · simp [setTab, hh, Ne.symm hh, hu, ih]

theorem nodupKeys_setTab {α : Type} {u : String} {t : α}
    {l : List (String × α)} (h : nodupKeys l) : nodupKeys (setTab u t l) := by
  unfold nodupKeys at h ⊢
  rw [keys_setTab]
  by_cases hu : u ∈ l.map Prod.fst
  · simpa [hu] using h
  · rw [if_neg hu]
    refine List.Nodup.append h (List.nodup_singleton u) ?_
    intro a ha hmem
    rw [List.mem_singleton] at hmem
    exact hu (hmem ▸ ha)

theorem keys_eraseTab_sublist {α : Type} (u : String)
    (l : List (String × α)) :
    ((eraseTab u l).map Prod.fst).Sublist (l.map Prod.fst) := by
  induction l with
  | nil => simp [eraseTab]
  | cons hd tl ih =>
      obtain ⟨w, tw⟩ := hd
      by_cases hh : w = u
      · simp only [eraseTab, hh, if_pos rfl, List.map_cons]
        exact ih.cons _
      · simp only [eraseTab, hh, if_false, List.map_cons]
        exact ih.cons₂ _

theorem nodupKeys_eraseTab {α : Type} {u : String}
    {l : List (String × α)} (h : nodupKeys l) : nodupKeys (eraseTab u l) :=
  (keys_eraseTab_sublist u l).nodup h

theorem lookupTab_none_not_mem {α : Type} {u : String} {l : List (String × α)}
    (h : lookupTab u l = none) (t : α) : (u, t) ∉ l := by
  induction l with
  | nil => simp
  | cons hd tl ih =>
      obtain ⟨w, tw⟩ := hd
      by_cases hh : w = u
      · rw [lookupTab, if_pos hh] at h
        exact absurd h (by simp)
      · rw [lookupTab, if_neg hh] at h
        intro hmem
        rcases List.mem_cons.mp hmem with heq | hmem2
        · injection heq with h1 h2
          exact hh h1.symm
        · exact ih h hmem2

theorem mem_setTab {α : Type} {v u : String} {tv t : α} :
    ∀ {l : List (String × α)}, (v, tv) ∈ setTab u t l →
      (v = u ∧ tv = t) ∨ (v, tv) ∈ l := by
  intro l
  induction l with
  | nil =>
      intro h
      simp only [setTab, List.mem_singleton] at h
      injection h with h1 h2
      exact Or.inl ⟨h1, h2⟩
  | cons hd tl ih =>
      obtain ⟨w, tw⟩ := hd
      intro h
      by_cases hh : w = u
      · simp only [setTab, if_pos hh] at h
        rcases List.mem_cons.mp h with heq | hmem
        · injection heq with h1 h2
          exact Or.inl ⟨h1, h2⟩
        · exact Or.inr (List.mem_cons_of_mem _ hmem)
      · simp only [setTab, if_neg hh] at h
        rcases List.mem_cons.mp h with heq | hmem
        · exact Or.inr (List.mem_cons.mpr (Or.inl heq))
        · rcases ih hmem with hc | hc
          · exact Or.inl hc
          · exact Or.inr (List.mem_cons_of_mem _ hc)

theorem not_mem_eraseTab {α : Type} (u : String) (t : α) :
    ∀ l : List (String × α), (u, t) ∉ eraseTab u l := by
  intro l
  induction l with
  | nil => simp [eraseTab]
  | cons hd tl ih =>
      obtain ⟨w, tw⟩ := hd
      by_cases hh : w = u
      · simpa [eraseTab, hh] using ih
      · simp only [eraseTab, if_neg hh]
        intro hmem
        rcases List.mem_cons.mp hmem with heq | hmem2
        · injection heq with h1 h2
          exact hh h1.symm
        · exact ih hmem2

theorem setTab_setTab_self {α : Type} (u : String) (t1 t2 : α) :
    ∀ l : List (String × α), setTab u t2 (setTab u t1 l) = setTab u t2 l := by
  intro l
  induction l with
  | nil => simp [setTab]
  | cons hd tl ih =>
      obtain ⟨w, tw⟩ := hd
      by_cases hh : w = u
      · simp [setTab, hh]
      · simp [setTab, hh, ih]

theorem eraseTab_eq_of_lookupTab_none {α : Type} {u : String}
    {l : List (String × α)} (h : lookupTab u l = none) : eraseTab u l = l := by
  induction l with
  | nil => rfl
  | cons hd tl ih =>
      obtain ⟨w, tw⟩ := hd
      by_cases hh : w = u
      · rw [lookupTab, if_pos hh] at h
        exact absurd h (by simp)
      · rw [lookupTab, if_neg hh] at h
        simp only [eraseTab, if_neg hh]
        rw [ih h]

theorem bm_getBrowser_some {s : BM.State} {g : Nat} (hb : s.browser = some g)
    (lk : Bool) : BM.getBrowser lk s = .ok (g, s) := by
  unfold BM.getBrowser
  rw [hb]

theorem bm_initBrowser_some {s : BM.State} {g : Nat} (hb : s.browser = some g)
    (lk : Bool) : BM.initBrowser lk s = .ok (g, s) := by
  unfold BM.initBrowser
  rw [hb]

theorem jss_getBrowser_some {s : JSS.State} {g : Nat} (hb : s.browser = some g)
    (lk : Bool) : JSS.getBrowser lk s = .ok (g, s) := by
  unfold JSS.getBrowser
  rw [hb]

theorem jss_getUserTab_reuse {s : JSS.State} {u : String} {t : JSS.TabInfo}
    {g : Nat} (hne : u ≠ "") (hb : s.browser = some g)
    (ht : lookupTab u s.userTabs = some t) (hopen : t.page ∉ s.closedPages)
    (now : Nat) (lk : Bool) :
    JSS.getUserTab u now lk s =
      .ok (t.page,
        { s with userTabs := setTab u { t with lastUsed := now } s.userTabs }) := by
  simp [JSS.getUserTab, JSS.getBrowser, JSS.lookupPhase, hne, hb, ht, hopen]

theorem jss_getUserTab_create_none {s : JSS.State} {u : String} {g : Nat}
    (hne : u ≠ "") (hb : s.browser = some g)
    (ht : lookupTab u s.userTabs = none) (now : Nat) (lk : Bool) :
    JSS.getUserTab u now lk s =
      .ok (s.nextPage,
        { s with
            nextPage := s.nextPage + 1
            userTabs := setTab u
              { page := s.nextPage, gen := g, lastUsed := now, createdAt := now }
              s.userTabs }) := by
  simp [JSS.getUserTab, JSS.getBrowser, JSS.lookupPhase, JSS.newPagePhase,
    JSS.insertPhase, hne, hb, ht]

theorem jss_getUserTab_create_stale {s : JSS.State} {u : String}
    {t : JSS.TabInfo} {g : Nat} (hne : u ≠ "") (hb : s.browser = some g)
    (ht : lookupTab u s.userTabs = some t) (hclosed : t.page ∈ s.closedPages)
    (now : Nat) (lk : Bool) :
    JSS.getUserTab u now lk s =
      .ok (s.nextPage,
        { s with
            nextPage := s.nextPage + 1
            userTabs := setTab u
              { page := s.nextPage, gen := g, lastUsed := now, createdAt := now }
              (eraseTab u s.userTabs) }) := by
  simp [JSS.getUserTab, JSS.getBrowser, JSS.lookupPhase, JSS.newPagePhase,
    JSS.insertPhase, hne, hb, ht, hclosed]

theorem jss_close_fields (u : String) (s : JSS.State) :
    (JSS.closeUserTab u s).browser = s.browser ∧
    (JSS.closeUserTab u s).nextBrowser = s.nextBrowser ∧
    (JSS.closeUserTab u s).launchCount = s.launchCount ∧
    (JSS.closeUserTab u s).nextPage = s.nextPage ∧
    (JSS.closeUserTab u s).userTabs = eraseTab u s.userTabs := by
  unfold JSS.closeUserTab
  cases h : lookupTab u s.userTabs with
  | none => simp [eraseTab_eq_of_lookupTab_none h]
  | some t =>
      by_cases hc : t.page ∈ s.closedPages
      · simp [hc]
      · unfold JSS.pageClose
        by_cases hbr : s.browser = some t.gen
        · simp [hc, hbr]
        · simp [hc, hbr]

theorem jss_close_closedPages (u : String) (s : JSS.State) :
    (JSS.closeUserTab u s).closedPages = s.closedPages ∨
    ∃ t : JSS.TabInfo,
      (JSS.closeUserTab u s).closedPages = t.page :: s.closedPages := by
  unfold JSS.closeUserTab
  cases h : lookupTab u s.userTabs with
  | none => exact Or.inl rfl
  | some t =>
      by_cases hc : t.page ∈ s.closedPages
      · left
        simp [hc]
      · unfold JSS.pageClose
        by_cases hbr : s.browser = some t.gen
        · right
          exact ⟨t, by simp [hc, hbr]⟩
        · left
          simp [hc, hbr]

theorem jss_close_closed_mono {p : Nat} (u : String) (s : JSS.State)
    (hp : p ∈ s.closedPages) : p ∈ (JSS.closeUserTab u s).closedPages := by
  rcases jss_close_closedPages u s with h | ⟨t, h⟩
  · rw [h]
    exact hp
  · rw [h]
    exact List.mem_cons_of_mem _ hp

theorem jss_close_closes {u : String} {s : JSS.State} {t : JSS.TabInfo}
    (ht : lookupTab u s.userTabs = some t) (hb : s.browser = some t.gen) :
    t.page ∈ (JSS.closeUserTab u s).closedPages := by
  unfold JSS.closeUserTab
  rw [ht]
  by_cases hc : t.page ∈ s.closedPages
  · simp [hc]
  · unfold JSS.pageClose
    simp [hc, hb]

theorem jss_closeMany_nil (s : JSS.State) : JSS.closeMany [] s = s := rfl

theorem jss_closeMany_cons (v : String) (rest : List String) (s : JSS.State) :
    JSS.closeMany (v :: rest) s = JSS.closeMany rest (JSS.closeUserTab v s) := by
  simp [JSS.closeMany]

theorem jss_closeMany_browser (l : List String) :
    ∀ s : JSS.State, (JSS.closeMany l s).browser = s.browser := by
  induction l with
  | nil => intro s; rfl
  | cons v rest ih =>
      intro s
      rw [jss_closeMany_cons, ih, (jss_close_fields v s).1]

theorem jss_closeMany_nextPage (l : List String) :
    ∀ s : JSS.State, (JSS.closeMany l s).nextPage = s.nextPage := by
  induction l with
  | nil => intro s; rfl
  | cons v rest ih =>
      intro s
      rw [jss_closeMany_cons, ih, (jss_close_fields v s).2.2.2.1]

theorem jss_closeMany_lookup_none (l : List String) :
    ∀ (s : JSS.State) (u : String), lookupTab u s.userTabs = none →
      lookupTab u (JSS.closeMany l s).userTabs = none := by
  induction l with
  | nil => intro s u h; exact h
  | cons v rest ih =>
      intro s u h
      rw [jss_closeMany_cons]
      apply ih
      rw [(jss_close_fields v s).2.2.2.2]
      by_cases hv : u = v
      · subst hv
        exact lookupTab_eraseTab_self u s.userTabs
      · rw [lookupTab_eraseTab_ne hv]
        exact h

theorem jss_closeMany_closed_mono (l : List String) :
    ∀ (s : JSS.State) (p : Nat), p ∈ s.closedPages →
      p ∈ (JSS.closeMany l s).closedPages := by
  induction l with
  | nil => intro s p h; exact h
  | cons v rest ih =>
      intro s p h
      rw [jss_closeMany_cons]
      exact ih _ _ (jss_close_closed_mono v s h)

theorem jss_closeMany_reclaims (l : List String) :
    ∀ (s : JSS.State) (u : String) (t : JSS.TabInfo), u ∈ l →
      lookupTab u s.userTabs = some t → s.browser = some t.gen →
      lookupTab u (JSS.closeMany l s).userTabs = none ∧
        t.page ∈ (JSS.closeMany l s).closedPages := by
  induction l with
  | nil =>
      intro s u t hu
      exact absurd hu (List.not_mem_nil u)
  | cons v rest ih =>
      intro s u t hu ht hb
      rw [jss_closeMany_cons]
      by_cases hv : u = v
      · subst hv
        constructor
        · apply jss_closeMany_lookup_none
          rw [(jss_close_fields u s).2.2.2.2]
          exact lookupTab_eraseTab_self u s.userTabs
        · exact jss_closeMany_closed_mono _ _ _ (jss_close_closes ht hb)
      · rcases List.mem_cons.mp hu with heq | hmem
        · exact absurd heq hv
        · refine ih _ u t hmem ?_ ?_
          · rw [(jss_close_fields v s).2.2.2.2, lookupTab_eraseTab_ne hv]
            exact ht
          · rw [(jss_close_fields v s).1]
            exact hb

theorem jss_cleanup_browser (now : Nat) (s : JSS.State) :
    (JSS.cleanupInactiveTabs now s).browser = s.browser :=
  jss_closeMany_browser _ s

theorem jss_cleanup_nextPage (now : Nat) (s : JSS.State) :
    (JSS.cleanupInactiveTabs now s).nextPage = s.nextPage :=
  jss_closeMany_nextPage _ s

theorem jss_cleanup_reclaims {s : JSS.State} {u : String} {t : JSS.TabInfo}
    {now : Nat} (ht : lookupTab u s.userTabs = some t)
    (hstale : JSS.INACTIVE_TIMEOUT < now - t.lastUsed)
    (hb : s.browser = some t.gen) :
    lookupTab u (JSS.cleanupInactiveTabs now s).userTabs = none ∧
      t.page ∈ (JSS.cleanupInactiveTabs now s).closedPages := by
  apply jss_closeMany_reclaims _ _ _ _ _ ht hb
  have hmem : (u, t) ∈ s.userTabs := mem_of_lookupTab ht
  have hfil : (u, t) ∈
      s.userTabs.filter (fun e => decide (JSS.INACTIVE_TIMEOUT < now - e.2.lastUsed)) :=
    List.mem_filter.mpr ⟨hmem, by simpa using hstale⟩
  exact List.mem_map.mpr ⟨(u, t), hfil, rfl⟩

theorem tm_close_fields (u : String) (s : TM.State) :
    (TM.closeUserTab u s).bm = s.bm ∧
    (TM.closeUserTab u s).nextPage = s.nextPage ∧
    (TM.closeUserTab u s).userTabs = eraseTab u s.userTabs := by
  unfold TM.closeUserTab
  cases h : lookupTab u s.userTabs with
  | none => simp [eraseTab_eq_of_lookupTab_none h]
  | some t =>
      unfold TM.pageClose
      by_cases hcond : s.bm.browser = some t.gen ∧ t.page ∉ s.closedPages
      · simp [hcond]
      · simp [hcond]

theorem tm_close_closedPages (u : String) (s : TM.State) :
    (TM.closeUserTab u s).closedPages = s.closedPages ∨
    ∃ t : TM.TabInfo,
      (TM.closeUserTab u s).closedPages = t.page :: s.closedPages := by
  unfold TM.closeUserTab
  cases h : lookupTab u s.userTabs with
  | none => exact Or.inl rfl
  | some t =>
      unfold TM.pageClose
      by_cases hcond : s.bm.browser = some t.gen ∧ t.page ∉ s.closedPages
      · right
        exact ⟨t, by simp [hcond]⟩
      · left
        simp [hcond]

theorem tm_close_closed_mono {p : Nat} (u : String) (s : TM.State)
    (hp : p ∈ s.closedPages) : p ∈ (TM.closeUserTab u s).closedPages := by
  rcases tm_close_closedPages u s with h | ⟨t, h⟩
  · rw [h]
    exact hp
  · rw [h]
    exact List.mem_cons_of_mem _ hp

theorem tm_close_closes {u : String} {s : TM.State} {t : TM.TabInfo}
    (ht : lookupTab u s.userTabs = some t) (hb : s.bm.browser = some t.gen) :
    t.page ∈ (TM.closeUserTab u s).closedPages := by
  unfold TM.closeUserTab
  rw [ht]
  unfold TM.pageClose
  by_cases hc : t.page ∈ s.closedPages
  · have hcond : ¬ (s.bm.browser = some t.gen ∧ t.page ∉ s.closedPages) := by
      intro hand
      exact hand.2 hc
    simp [hcond, hc]
  · simp [hb, hc]

theorem tm_closeMany_nil (s : TM.State) : TM.closeMany [] s = s := rfl

theorem tm_closeMany_cons (v : String) (rest : List String) (s : TM.State) :
    TM.closeMany (v :: rest) s = TM.closeMany rest (TM.closeUserTab v s) := by
  simp [TM.closeMany]

theorem tm_closeMany_bm (l : List String) :
    ∀ s : TM.State, (TM.closeMany l s).bm = s.bm := by
  induction l with
  | nil => intro s; rfl
  | cons v rest ih =>
      intro s
      rw [tm_closeMany_cons, ih, (tm_close_fields v s).1]

theorem tm_closeMany_nextPage (l : List String) :
    ∀ s : TM.State, (TM.closeMany l s).nextPage = s.nextPage := by
  induction l with
  | nil => intro s; rfl
  | cons v rest ih =>
      intro s
      rw [tm_closeMany_cons, ih, (tm_close_fields v s).2.1]

theorem tm_closeMany_lookup_none (l : List String) :
    ∀ (s : TM.State) (u : String), lookupTab u s.userTabs = none →
      lookupTab u (TM.closeMany l s).userTabs = none := by
  induction l with
  | nil => intro s u h; exact h
  | cons v rest ih =>
      intro s u h
      rw [tm_closeMany_cons]
      apply ih
      rw [(tm_close_fields v s).2.2]
      by_cases hv : u = v
      · subst hv
        exact lookupTab_eraseTab_self u s.userTabs
      · rw [lookupTab_eraseTab_ne hv]
        exact h

theorem tm_closeMany_closed_mono (l : List String) :
    ∀ (s : TM.State) (p : Nat), p ∈ s.closedPages →
      p ∈ (TM.closeMany l s).closedPages := by
  induction l with
  | nil => intro s p h; exact h
  | cons v rest ih =>
      intro s p h
      rw [tm_closeMany_cons]
      exact ih _ _ (tm_close_closed_mono v s h)

theorem tm_closeMany_reclaims (l : List String) :
    ∀ (s : TM.State) (u : String) (t : TM.TabInfo), u ∈ l →
      lookupTab u s.userTabs = some t → s.bm.browser = some t.gen →
      lookupTab u (TM.closeMany l s).userTabs = none ∧
        t.page ∈ (TM.closeMany l s).closedPages := by
  induction l with
  | nil =>
      intro s u t hu
      exact absurd hu (List.not_mem_nil u)
  | cons v rest ih =>
      intro s u t hu ht hb
      rw [tm_closeMany_cons]
      by_cases hv : u = v
      · subst hv
        constructor
        · apply tm_closeMany_lookup_none
          rw [(tm_close_fields u s).2.2]
          exact lookupTab_eraseTab_self u s.userTabs
        · exact tm_closeMany_closed_mono _ _ _ (tm_close_closes ht hb)
      · rcases List.mem_cons.mp hu with heq | hmem
        · exact absurd heq hv
        · refine ih _ u t hmem ?_ ?_
          · rw [(tm_close_fields v s).2.2, lookupTab_eraseTab_ne hv]
            exact ht
          · rw [(tm_close_fields v s).1]
            exact hb

theorem tm_cleanup_bm (now : Nat) (s : TM.State) :
    (TM.cleanupInactiveTabs now s).bm = s.bm :=
  tm_closeMany_bm _ s

theorem tm_cleanup_nextPage (now : Nat) (s : TM.State) :
    (TM.cleanupInactiveTabs now s).nextPage = s.nextPage :=
  tm_closeMany_nextPage _ s

theorem tm_cleanup_reclaims {s : TM.State} {u : String} {t : TM.TabInfo}
    {now : Nat} (ht : lookupTab u s.userTabs = some t)
    (hstale : TM.maxInactiveTime < now - t.lastUsed)
    (hb : s.bm.browser = some t.gen) :
    lookupTab u (TM.cleanupInactiveTabs now s).userTabs = none ∧
      t.page ∈ (TM.cleanupInactiveTabs now s).closedPages := by
  apply tm_closeMany_reclaims _ _ _ _ _ ht hb
  have hmem : (u, t) ∈ s.userTabs := mem_of_lookupTab ht
  have hfil : (u, t) ∈
      s.userTabs.filter (fun e => decide (TM.maxInactiveTime < now - e.2.lastUsed)) :=
    List.mem_filter.mpr ⟨hmem, by simpa using hstale⟩
  exact List.mem_map.mpr ⟨(u, t), hfil, rfl⟩

theorem tm_createUserTab_ready {s : TM.State} {g : Nat}
    (hb : s.bm.browser = some g) (u : String) (now : Nat) (lk : Bool) :
    TM.createUserTab u now lk s =
      .ok (s.nextPage,
        { bm := s.bm
          nextPage := s.nextPage + 1
          closedPages := (TM.closeUserTab u s).closedPages
          userTabs := setTab u { page := s.nextPage, gen := g, lastUsed := now }
                        (eraseTab u s.userTabs) }) := by
  have h1 := (tm_close_fields u s).1
  have h2 := (tm_close_fields u s).2.1
  have h3 := (tm_close_fields u s).2.2
  unfold TM.createUserTab
  simp [h1, h2, h3, bm_getBrowser_some hb]

theorem tm_createUserTab_relaunch {s : TM.State} {u : String}
    (hb : s.bm.browser = none) (hu : lookupTab u s.userTabs = none)
    (now : Nat) :
    TM.createUserTab u now true s =
      .ok (s.nextPage,
        { bm := { browser := some s.bm.nextBrowser
                  nextBrowser := s.bm.nextBrowser + 1
                  launchCount := s.bm.launchCount + 1 }
          nextPage := s.nextPage + 1
          closedPages := s.closedPages
          userTabs := setTab u { page := s.nextPage, gen := s.bm.nextBrowser, lastUsed := now }
                        s.userTabs }) := by
  unfold TM.createUserTab TM.closeUserTab BM.getBrowser BM.initBrowser
  rw [hu]
  simp [hb]

theorem tm_getUserTab_hit {s : TM.State} {u : String} {t : TM.TabInfo}
    (ht : lookupTab u s.userTabs = some t) (halive : TM.pageEvalOk s t = true)
    (now : Nat) (lk : Bool) :
    TM.getUserTab u now lk s =
      .ok (t.page,
        { s with userTabs := setTab u { t with lastUsed := now } s.userTabs }) := by
  unfold TM.getUserTab
  rw [ht]
  simp [halive]

theorem tm_getUserTab_miss {s : TM.State} {u : String}
    (ht : lookupTab u s.userTabs = none) (now : Nat) (lk : Bool) :
    TM.getUserTab u now lk s = TM.createUserTab u now lk s := by
  unfold TM.getUserTab
  rw [ht]

theorem tm_getUserTab_dead {s : TM.State} {u : String} {t : TM.TabInfo}
    (ht : lookupTab u s.userTabs = some t) (hdead : TM.pageEvalOk s t = false)
    (now : Nat) (lk : Bool) :
    TM.getUserTab u now lk s =
      TM.createUserTab u now lk { s with userTabs := eraseTab u s.userTabs } := by
  unfold TM.getUserTab
  rw [ht]
  simp [hdead]

theorem substrPrefix_length_le (s : String) (n : Nat) :
    (substrPrefix s n).length ≤ n := by
  show (s.data.take n).length ≤ n
  rw [List.length_take]
  exact Nat.min_le_left n s.data.length

theorem jss_close_noop {u : String} {s : JSS.State}
    (h : lookupTab u s.userTabs = none) : JSS.closeUserTab u s = s := by
  unfold JSS.closeUserTab
  rw [h]

theorem tm_close_noop {u : String} {s : TM.State}
    (h : lookupTab u s.userTabs = none) : TM.closeUserTab u s = s := by
  unfold TM.closeUserTab
  rw [h]

/-- Claim C7: for every supervisor state, getBrowser returns the current
handle when one is live and connected (equivalently in this embedding:
whenever the browser field is set, since the registered disconnect handler
clears it), and otherwise — uninitialized or disconnected — it delegates to
the initialize method and returns its result; and the initialize method
called while a handle is already live returns that existing handle with the
state unchanged, so no second browser is launched. -/
theorem c7_getBrowser_autoheal :
    (∀ (s : BM.State) (lk : Bool) (b : Nat), s.browser = some b →
        BM.getBrowser lk s = .ok (b, s) ∧ BM.initBrowser lk s = .ok (b, s)) ∧
    (∀ (s : BM.State) (lk : Bool), s.browser = none →
        BM.getBrowser lk s = BM.initBrowser lk s) ∧
    (∀ s : BM.State, (BM.disconnectEvent s).browser = none) := by
  refine ⟨?_, ?_, ?_⟩
  · intro s lk b hb
    exact ⟨bm_getBrowser_some hb lk, bm_initBrowser_some hb lk⟩
  · intro s lk hb
    unfold BM.getBrowser
    rw [hb]
  · intro s
    rfl

/-- Witness for c7_getBrowser_autoheal at the concrete states bmReady and
bmDown. -/
theorem c7_getBrowser_autoheal_witness :
    BM.getBrowser true bmReady = .ok (0, bmReady) ∧
    BM.initBrowser true bmReady = .ok (0, bmReady) ∧
    BM.getBrowser true bmDown = BM.initBrowser true bmDown ∧
    (BM.disconnectEvent bmReady).browser = none :=
  ⟨(c7_getBrowser_autoheal.1 bmReady true 0 rfl).1,
   (c7_getBrowser_autoheal.1 bmReady true 0 rfl).2,
   c7_getBrowser_autoheal.2.1 bmDown true rfl,
   c7_getBrowser_autoheal.2.2 bmReady⟩

/-- Claim C6: in both pool variants, closeUserTab closes the underlying
page when it is open (and the browser still owns it), removes the map
entry, is a no-op when no entry exists (hence idempotent), leaves entries
of other users untouched, and — being a total function on states — never
propagates an error to its caller: the entry is removed whether or not the
close succeeded. -/
theorem c6_closeUserTab_contract :
    (∀ (s : JSS.State) (u : String),
        (lookupTab u s.userTabs = none → JSS.closeUserTab u s = s) ∧
        lookupTab u (JSS.closeUserTab u s).userTabs = none ∧
        JSS.closeUserTab u (JSS.closeUserTab u s) = JSS.closeUserTab u s ∧
        (∀ t : JSS.TabInfo, lookupTab u s.userTabs = some t →
            s.browser = some t.gen →
            t.page ∈ (JSS.closeUserTab u s).closedPages) ∧
        (∀ v, v ≠ u →
            lookupTab v (JSS.closeUserTab u s).userTabs = lookupTab v s.userTabs)) ∧
    (∀ (s : TM.State) (u : String),
        (lookupTab u s.userTabs = none → TM.closeUserTab u s = s) ∧
        lookupTab u (TM.closeUserTab u s).userTabs = none ∧
        TM.closeUserTab u (TM.closeUserTab u s) = TM.closeUserTab u s ∧
        (∀ t : TM.TabInfo, lookupTab u s.userTabs = some t →
            s.bm.browser = some t.gen →
            t.page ∈ (TM.closeUserTab u s).closedPages) ∧
        (∀ v, v ≠ u →
            lookupTab v (TM.closeUserTab u s).userTabs = lookupTab v s.userTabs)) := by
  constructor
  · intro s u
    have hself : lookupTab u (JSS.closeUserTab u s).userTabs = none := by
      rw [(jss_close_fields u s).2.2.2.2]
      exact lookupTab_eraseTab_self u s.userTabs
    refine ⟨fun h => jss_close_noop h, hself, jss_close_noop hself, ?_, ?_⟩
    · intro t ht hb
      exact jss_close_closes ht hb
    · intro v hv
      rw [(jss_close_fields u s).2.2.2.2]
      exact lookupTab_eraseTab_ne hv s.userTabs
  · intro s u
    have hself : lookupTab u (TM.closeUserTab u s).userTabs = none := by
      rw [(tm_close_fields u s).2.2]
      exact lookupTab_eraseTab_self u s.userTabs
    refine ⟨fun h => tm_close_noop h, hself, tm_close_noop hself, ?_, ?_⟩
    · intro t ht hb
      exact tm_close_closes ht hb
    · intro v hv
      rw [(tm_close_fields u s).2.2]
      exact lookupTab_eraseTab_ne hv s.userTabs

/-- Witness for c6_closeUserTab_contract: the no-op case on an empty pool,
removal plus page closure on a one-tab pool, in both variants. -/
theorem c6_closeUserTab_contract_witness :
    JSS.closeUserTab "nobody" emptyPoolState = emptyPoolState ∧
    lookupTab "user-0001" (JSS.closeUserTab "user-0001" jssOneTab).userTabs = none ∧
    (0 : Nat) ∈ (JSS.closeUserTab "user-0001" jssOneTab).closedPages ∧
    TM.closeUserTab "nobody" tmEmptyState = tmEmptyState ∧
    (0 : Nat) ∈ (TM.closeUserTab "user-0001" tmOneTab).closedPages :=
  ⟨(c6_closeUserTab_contract.1 emptyPoolState "nobody").1 (by decide),
   (c6_closeUserTab_contract.1 jssOneTab "user-0001").2.1,
   (c6_closeUserTab_contract.1 jssOneTab "user-0001").2.2.2.1
     { page := 0, gen := 0, lastUsed := 10, createdAt := 10 } (by decide) rfl,
   (c6_closeUserTab_contract.2 tmEmptyState "nobody").1 (by decide),
   (c6_closeUserTab_contract.2 tmOneTab "user-0001").2.2.2.1
     { page := 0, gen := 0, lastUsed := 10 } (by decide) rfl⟩

/-- Claim C2 counterexample: the claim requires every acquire with an empty
userId to fail with InvalidUserError, creating no tab and no pool entry;
but TabManager.getUserTab performs no userId validation, so for the empty
userId it succeeds, allocates a page and inserts a pool entry keyed by the
empty string. -/
theorem c2_counterexample :
    TM.getUserTab "" 500 true tmEmptyState = .ok (0, tmEmptyAfterEmptyAcquire) ∧
    lookupTab "" tmEmptyAfterEmptyAcquire.userTabs =
      some { page := 0, gen := 0, lastUsed := 500 } ∧
    tmEmptyAfterEmptyAcquire.nextPage = tmEmptyState.nextPage + 1 := by
  decide

/-- Claim C2 amended: JobScraperService.getUserTab rejects an empty userId
with an error before touching browser or pool, but TabManager.getUserTab
does not validate the userId: called with the empty userId on a pool with
no such entry it succeeds, allocating a fresh page and inserting an entry
keyed by the empty string. -/
theorem c2_amended_validation :
    (∀ (now : Nat) (lk : Bool) (s : JSS.State),
        JSS.getUserTab "" now lk s = .error .invalidUser) ∧
    (∀ (now g : Nat) (s : TM.State), s.bm.browser = some g →
        lookupTab "" s.userTabs = none →
        TM.getUserTab "" now true s =
          .ok (s.nextPage,
            { bm := s.bm
              nextPage := s.nextPage + 1
              closedPages := s.closedPages
              userTabs := setTab "" { page := s.nextPage, gen := g, lastUsed := now }
                            s.userTabs })) := by
  constructor
  · intro now lk s
    unfold JSS.getUserTab
    simp
  · intro now g s hb hu
    rw [tm_getUserTab_miss hu, tm_createUserTab_ready hb, tm_close_noop hu,
      eraseTab_eq_of_lookupTab_none hu]

/-- Witness for c2_amended_validation at emptyPoolState and
tmEmptyState. -/
theorem c2_amended_validation_witness :
    JSS.getUserTab "" 500 true emptyPoolState = .error .invalidUser ∧
    TM.getUserTab "" 500 true tmEmptyState =
      .ok (tmEmptyState.nextPage,
        { bm := tmEmptyState.bm
          nextPage := tmEmptyState.nextPage + 1
          closedPages := tmEmptyState.closedPages
          userTabs := setTab "" { page := tmEmptyState.nextPage, gen := 0, lastUsed := 500 }
                        tmEmptyState.userTabs }) :=
  ⟨c2_amended_validation.1 500 true emptyPoolState,
   c2_amended_validation.2 500 0 tmEmptyState rfl rfl⟩

/-- Claim C9 counterexample: the claim requires that no full userId ever
appears verbatim among the reported identifiers, for userIds of any
length; but `userId.substring(0, 8)` leaves a userId of at most eight
characters intact, so TabManager.getStats reports the stored three-character
userId abc verbatim. -/
theorem c9_counterexample :
    (TM.getStats tmShortIdState).users = ["abc"] ∧
    lookupTab "abc" tmShortIdState.userTabs =
      some { page := 0, gen := 0, lastUsed := 0 } ∧
    "abc" ∈ (TM.getStats tmShortIdState).users := by
  decide

/-- Claim C9 amended: every reported identifier is the first eight
characters of the stored userId (TabManager) or that prefix followed by
three dots (JobScraperService); a stored userId strictly longer than eight
characters therefore never appears verbatim in the TabManager report, while
userIds of at most eight characters do appear in full. -/
theorem c9_redaction_amended :
    (∀ s : TM.State,
        (TM.getStats s).users = s.userTabs.map (fun e => substrPrefix e.1 8)) ∧
    (∀ s : JSS.State,
        (JSS.getStats s).users =
          s.userTabs.map (fun e => substrPrefix e.1 8 ++ "...")) ∧
    (∀ (s : TM.State) (v : String) (t : TM.TabInfo),
        lookupTab v s.userTabs = some t → 8 < v.length →
        v ∉ (TM.getStats s).users) := by
  refine ⟨fun s => rfl, fun s => rfl, ?_⟩
  intro s v t ht hlen hmem
  have hmem2 : v ∈ s.userTabs.map (fun e => substrPrefix e.1 8) := hmem
  rcases List.mem_map.mp hmem2 with ⟨e, hmem3, heq⟩
  have hle : v.length ≤ 8 := by
    rw [← heq]
    exact substrPrefix_length_le e.1 8
  omega

/-- Witness for c9_redaction_amended: the reported lists at the concrete
short-id and long-id states, and the non-leak of the twelve-character
userId. -/
theorem c9_redaction_amended_witness :
    (TM.getStats tmShortIdState).users =
      tmShortIdState.userTabs.map (fun e => substrPrefix e.1 8) ∧
    (JSS.getStats jssOneTab).users =
      jssOneTab.userTabs.map (fun e => substrPrefix e.1 8 ++ "...") ∧
    "abcdefghijkl" ∉ (TM.getStats tmLongIdState).users :=
  ⟨c9_redaction_amended.1 tmShortIdState,
   c9_redaction_amended.2.1 jssOneTab,
   c9_redaction_amended.2.2 tmLongIdState "abcdefghijkl"
     { page := 0, gen := 0, lastUsed := 0 } (by decide) (by decide)⟩

/-- Claim C5: for every userId that had a tab before a browser disconnect
event, the next acquire for that user succeeds: the evaluate liveness probe
fails on the dead page, the stale entry is purged, the browser is
transparently relaunched (launch counter increments, a fresh handle is
stored), and a brand-new page is returned — no error reaches the caller
merely because the browser was replaced. -/
theorem c5_disconnect_self_heal (s : TM.State) (u : String) (t : TM.TabInfo)
    (now : Nat) (ht : lookupTab u s.userTabs = some t) :
    TM.getUserTab u now true { s with bm := BM.disconnectEvent s.bm } =
      .ok (s.nextPage,
        { bm := { browser := some s.bm.nextBrowser
                  nextBrowser := s.bm.nextBrowser + 1
                  launchCount := s.bm.launchCount + 1 }
          nextPage := s.nextPage + 1
          closedPages := s.closedPages
          userTabs := setTab u { page := s.nextPage, gen := s.bm.nextBrowser, lastUsed := now }
                        (eraseTab u s.userTabs) }) := by
  have ht2 : lookupTab u ({ s with bm := BM.disconnectEvent s.bm } : TM.State).userTabs
      = some t := ht
  have hdead : TM.pageEvalOk { s with bm := BM.disconnectEvent s.bm } t = false := by
    simp [TM.pageEvalOk, BM.disconnectEvent]
  rw [tm_getUserTab_dead ht2 hdead]
  have hb : ({ { s with bm := BM.disconnectEvent s.bm } with
      userTabs := eraseTab u ({ s with bm := BM.disconnectEvent s.bm } : TM.State).userTabs } :
      TM.State).bm.browser = none := rfl
  have hu : lookupTab u ({ { s with bm := BM.disconnectEvent s.bm } with
      userTabs := eraseTab u ({ s with bm := BM.disconnectEvent s.bm } : TM.State).userTabs } :
      TM.State).userTabs = none :=
    lookupTab_eraseTab_self u _
  rw [tm_createUserTab_relaunch hb hu now]
  rfl

/-- Witness for c5_disconnect_self_heal at tmOneTab: after a disconnect the
acquire for user-0001 returns the fresh page 1 from the relaunched
browser. -/
theorem c5_disconnect_self_heal_witness :
    TM.getUserTab "user-0001" 77 true
        { tmOneTab with bm := BM.disconnectEvent tmOneTab.bm } =
      .ok (tmOneTab.nextPage,
        { bm := { browser := some tmOneTab.bm.nextBrowser
                  nextBrowser := tmOneTab.bm.nextBrowser + 1
                  launchCount := tmOneTab.bm.launchCount + 1 }
          nextPage := tmOneTab.nextPage + 1
          closedPages := tmOneTab.closedPages
          userTabs := setTab "user-0001"
                        { page := tmOneTab.nextPage, gen := tmOneTab.bm.nextBrowser,
                          lastUsed := 77 }
                        (eraseTab "user-0001" tmOneTab.userTabs) }) :=
  c5_disconnect_self_heal tmOneTab "user-0001"
    { page := 0, gen := 0, lastUsed := 10 } 77 (by decide)

/-- Claim C3: for a userId with a live entry, two acquires within the idle
threshold and with no intervening close return the very same page handle;
the second call allocates no new browsing context (page counter and launch
counter unchanged), only bumps the lastUsed stamp of the entry, and leaves
everything else — creation stamp, page, other entries, browser — unchanged.
Stated for both pool variants. -/
theorem c3_reuse_same_handle :
    (∀ (s : JSS.State) (u : String) (t : JSS.TabInfo) (g now1 now2 : Nat) (lk : Bool),
        u ≠ "" → s.browser = some g → lookupTab u s.userTabs = some t →
        t.page ∉ s.closedPages → now1 - t.lastUsed ≤ JSS.INACTIVE_TIMEOUT →
        ∃ s1 s2 : JSS.State,
          JSS.getUserTab u now1 lk s = .ok (t.page, s1) ∧
          JSS.getUserTab u now2 lk s1 = .ok (t.page, s2) ∧
          s2.nextPage = s.nextPage ∧
          s2.launchCount = s.launchCount ∧
          s2.browser = s.browser ∧
          s2.closedPages = s.closedPages ∧
          lookupTab u s2.userTabs = some { t with lastUsed := now2 } ∧
          (∀ v, v ≠ u → lookupTab v s2.userTabs = lookupTab v s.userTabs)) ∧
    (∀ (s : TM.State) (u : String) (t : TM.TabInfo) (now1 now2 : Nat) (lk : Bool),
        lookupTab u s.userTabs = some t → TM.pageEvalOk s t = true →
        ∃ s1 s2 : TM.State,
          TM.getUserTab u now1 lk s = .ok (t.page, s1) ∧
          TM.getUserTab u now2 lk s1 = .ok (t.page, s2) ∧
          s2.nextPage = s.nextPage ∧
          s2.bm = s.bm ∧
          s2.closedPages = s.closedPages ∧
          lookupTab u s2.userTabs = some { t with lastUsed := now2 } ∧
          (∀ v, v ≠ u → lookupTab v s2.userTabs = lookupTab v s.userTabs)) := by
  constructor
  · intro s u t g now1 now2 lk hne hb ht hopen _hidle
    have h1 := jss_getUserTab_reuse hne hb ht hopen now1 lk
    have ht1 : lookupTab u (setTab u { t with lastUsed := now1 } s.userTabs) =
        some { t with lastUsed := now1 } :=
      lookupTab_setTab_self u _ s.userTabs
    have h2 := jss_getUserTab_reuse
      (s := { s with userTabs := setTab u { t with lastUsed := now1 } s.userTabs })
      hne hb ht1 hopen now2 lk
    refine ⟨_, _, h1, h2, rfl, rfl, rfl, rfl, ?_, ?_⟩
    · show lookupTab u
          (setTab u { { t with lastUsed := now1 } with lastUsed := now2 }
            (setTab u { t with lastUsed := now1 } s.userTabs)) =
        some { t with lastUsed := now2 }
      rw [setTab_setTab_self]
      exact lookupTab_setTab_self u _ s.userTabs
    · intro v hv
      show lookupTab v
          (setTab u { { t with lastUsed := now1 } with lastUsed := now2 }
            (setTab u { t with lastUsed := now1 } s.userTabs)) =
        lookupTab v s.userTabs
      rw [lookupTab_setTab_ne hv, lookupTab_setTab_ne hv]
  · intro s u t now1 now2 lk ht halive
    have h1 := tm_getUserTab_hit ht halive now1 lk
    have ht1 : lookupTab u (setTab u { t with lastUsed := now1 } s.userTabs) =
        some { t with lastUsed := now1 } :=
      lookupTab_setTab_self u _ s.userTabs
    have halive1 : TM.pageEvalOk
        { s with userTabs := setTab u { t with lastUsed := now1 } s.userTabs }
        { t with lastUsed := now1 } = true := halive
    have h2 := tm_getUserTab_hit
      (s := { s with userTabs := setTab u { t with lastUsed := now1 } s.userTabs })
      ht1 halive1 now2 lk
    refine ⟨_, _, h1, h2, rfl, rfl, rfl, ?_, ?_⟩
    · show lookupTab u
          (setTab u { { t with lastUsed := now1 } with lastUsed := now2 }
            (setTab u { t with lastUsed := now1 } s.userTabs)) =
        some { t with lastUsed := now2 }
      rw [setTab_setTab_self]
      exact lookupTab_setTab_self u _ s.userTabs
    · intro v hv
      show lookupTab v
          (setTab u { { t with lastUsed := now1 } with lastUsed := now2 }
            (setTab u { t with lastUsed := now1 } s.userTabs)) =
        lookupTab v s.userTabs
      rw [lookupTab_setTab_ne hv, lookupTab_setTab_ne hv]

/-- Witness for c3_reuse_same_handle at jssOneTab and tmOneTab: two
acquires at times 50 and 60 both return page 0. -/
theorem c3_reuse_same_handle_witness :
    (∃ s1 s2 : JSS.State,
        JSS.getUserTab "user-0001" 50 true jssOneTab = .ok (0, s1) ∧
        JSS.getUserTab "user-0001" 60 true s1 = .ok (0, s2) ∧
        s2.nextPage = jssOneTab.nextPage ∧
        s2.launchCount = jssOneTab.launchCount ∧
        s2.browser = jssOneTab.browser ∧
        s2.closedPages = jssOneTab.closedPages ∧
        lookupTab "user-0001" s2.userTabs =
          some { page := 0, gen := 0, lastUsed := 60, createdAt := 10 } ∧
        (∀ v, v ≠ "user-0001" →
            lookupTab v s2.userTabs = lookupTab v jssOneTab.userTabs)) ∧
    (∃ s1 s2 : TM.State,
        TM.getUserTab "user-0001" 50 true tmOneTab = .ok (0, s1) ∧
        TM.getUserTab "user-0001" 60 true s1 = .ok (0, s2) ∧
        s2.nextPage = tmOneTab.nextPage ∧
        s2.bm = tmOneTab.bm ∧
        s2.closedPages = tmOneTab.closedPages ∧
        lookupTab "user-0001" s2.userTabs =
          some { page := 0, gen := 0, lastUsed := 60 } ∧
        (∀ v, v ≠ "user-0001" →
            lookupTab v s2.userTabs = lookupTab v tmOneTab.userTabs)) :=
  ⟨c3_reuse_same_handle.1 jssOneTab "user-0001"
      { page := 0, gen := 0, lastUsed := 10, createdAt := 10 } 0 50 60 true
      (by decide) rfl (by decide) (by decide) (by decide),
   c3_reuse_same_handle.2 tmOneTab "user-0001"
      { page := 0, gen := 0, lastUsed := 10 } 50 60 true
      (by decide) (by decide)⟩

/-- Claim C1 counterexample: two concurrent getUserTab calls for
user-0001 on an empty pool with the browser ready, interleaved at the
await points of getUserTab (the map insertion happens only after the
newPage / setViewport / setUserAgent awaits), produce TWO browsing
contexts (page counter rises from 0 to 2) and the callers receive the
distinct handles 0 and 1 — refuting that exactly one context is created
and that both callers obtain the same tab.  The overwritten page 0 stays
open (never closed) but is no longer referenced by the pool. -/
theorem c1_counterexample :
    (JSS.concurrentAcquire "user-0001" 1000 0 emptyPoolState).1 = 0 ∧
    (JSS.concurrentAcquire "user-0001" 1000 0 emptyPoolState).2.1 = 1 ∧
    (JSS.concurrentAcquire "user-0001" 1000 0 emptyPoolState).1 ≠
      (JSS.concurrentAcquire "user-0001" 1000 0 emptyPoolState).2.1 ∧
    (JSS.concurrentAcquire "user-0001" 1000 0 emptyPoolState).2.2.nextPage = 2 ∧
    (JSS.concurrentAcquire "user-0001" 1000 0 emptyPoolState).2.2.userTabs =
      [("user-0001", { page := 1, gen := 0, lastUsed := 1000, createdAt := 1000 })] ∧
    (JSS.concurrentAcquire "user-0001" 1000 0 emptyPoolState).2.2.closedPages = [] := by
  decide

/-- Claim C1 amended: acquisition for a given userId is NOT serialized.
Whenever the pool has no entry for the userId and the browser is ready,
the legal event-loop interleaving modelled by concurrentAcquire lets both
callers pass the pool lookup before either has stored an entry: each
creates its own browsing context (two pages allocated), the callers
receive distinct handles, the second insertion overwrites the first, and
the first page remains open but absent from the pool. -/
theorem c1_acquire_not_serialized (u : String) (now b : Nat) (s : JSS.State)
    (hne : u ≠ "") (hmiss : lookupTab u s.userTabs = none) :
    (JSS.concurrentAcquire u now b s).1 = s.nextPage ∧
    (JSS.concurrentAcquire u now b s).2.1 = s.nextPage + 1 ∧
    (JSS.concurrentAcquire u now b s).1 ≠ (JSS.concurrentAcquire u now b s).2.1 ∧
    (JSS.concurrentAcquire u now b s).2.2.nextPage = s.nextPage + 1 + 1 ∧
    lookupTab u (JSS.concurrentAcquire u now b s).2.2.userTabs =
      some { page := s.nextPage + 1, gen := b, lastUsed := now, createdAt := now } ∧
    (u, ({ page := s.nextPage, gen := b, lastUsed := now, createdAt := now } : JSS.TabInfo))
      ∉ (JSS.concurrentAcquire u now b s).2.2.userTabs ∧
    (JSS.concurrentAcquire u now b s).2.2.closedPages = s.closedPages := by
  have hcalc : JSS.concurrentAcquire u now b s =
      (s.nextPage, s.nextPage + 1,
        { s with
            nextPage := s.nextPage + 1 + 1
            userTabs := setTab u
              { page := s.nextPage + 1, gen := b, lastUsed := now, createdAt := now }
              (setTab u
                { page := s.nextPage, gen := b, lastUsed := now, createdAt := now }
                s.userTabs) }) := by
    simp [JSS.concurrentAcquire, JSS.lookupPhase, JSS.newPagePhase,
      JSS.insertPhase, hmiss]
  rw [hcalc]
  refine ⟨rfl, rfl, ?_, rfl, ?_, ?_, rfl⟩
  · show s.nextPage ≠ s.nextPage + 1
    omega
  · show lookupTab u (setTab u _ (setTab u _ s.userTabs)) = _
    rw [setTab_setTab_self]
    exact lookupTab_setTab_self u _ s.userTabs
  · intro hmem
    have hmem2 : (u, ({ page := s.nextPage, gen := b, lastUsed := now, createdAt := now } : JSS.TabInfo)) ∈
        setTab u { page := s.nextPage + 1, gen := b, lastUsed := now, createdAt := now }
          (setTab u { page := s.nextPage, gen := b, lastUsed := now, createdAt := now }
            s.userTabs) := hmem
    rw [setTab_setTab_self] at hmem2
    rcases mem_setTab hmem2 with ⟨_, heq⟩ | hmem3
    · have hpage : s.nextPage = s.nextPage + 1 := congrArg JSS.TabInfo.page heq
      omega
    · exact lookupTab_none_not_mem hmiss _ hmem3

/-- Witness for c1_acquire_not_serialized at emptyPoolState for
user-0002. -/
theorem c1_acquire_not_serialized_witness :
    (JSS.concurrentAcquire "user-0002" 7 0 emptyPoolState).1 =
      emptyPoolState.nextPage ∧
    (JSS.concurrentAcquire "user-0002" 7 0 emptyPoolState).2.1 =
      emptyPoolState.nextPage + 1 ∧
    (JSS.concurrentAcquire "user-0002" 7 0 emptyPoolState).1 ≠
      (JSS.concurrentAcquire "user-0002" 7 0 emptyPoolState).2.1 ∧
    (JSS.concurrentAcquire "user-0002" 7 0 emptyPoolState).2.2.nextPage =
      emptyPoolState.nextPage + 1 + 1 ∧
    lookupTab "user-0002" (JSS.concurrentAcquire "user-0002" 7 0 emptyPoolState).2.2.userTabs =
      some { page := emptyPoolState.nextPage + 1, gen := 0, lastUsed := 7, createdAt := 7 } ∧
    ("user-0002", ({ page := emptyPoolState.nextPage, gen := 0, lastUsed := 7, createdAt := 7 } : JSS.TabInfo))
      ∉ (JSS.concurrentAcquire "user-0002" 7 0 emptyPoolState).2.2.userTabs ∧
    (JSS.concurrentAcquire "user-0002" 7 0 emptyPoolState).2.2.closedPages =
      emptyPoolState.closedPages :=
  c1_acquire_not_serialized "user-0002" 7 0 emptyPoolState (by decide) (by decide)

/-- Claim C10: for every call to searchJobsNaukari with a non-empty
userId, the call resolves without an error: it always yields an ok job
list, and whenever tab acquisition fails (browser launch failure included)
or the navigation / extraction outcome is a failure, the result is the
empty list — indistinguishable from a search that found nothing. -/
theorem jss_search_acquireFail {u : String} {now : Nat} {lk : Bool}
    {s : JSS.State} {e : Err} (hu : u ≠ "")
    (hg : JSS.getUserTab u now lk s = .error e)
    (scrape : Except Unit (List JSS.Job)) :
    JSS.searchJobsNaukari u now lk scrape s = (.ok [], s) := by
  unfold JSS.searchJobsNaukari
  rw [if_neg hu, hg]

theorem jss_search_run {u : String} {now : Nat} {lk : Bool}
    {s s1 : JSS.State} {p : Nat} (hu : u ≠ "")
    (hg : JSS.getUserTab u now lk s = .ok (p, s1))
    (scrape : Except Unit (List JSS.Job)) :
    JSS.searchJobsNaukari u now lk scrape s = JSS.searchBody u now scrape p s1 := by
  unfold JSS.searchJobsNaukari
  rw [if_neg hu, hg]

theorem jss_searchBody_fail (u : String) (now : Nat) (e2 : Unit) (p : Nat)
    (s1 : JSS.State) : JSS.searchBody u now (.error e2) p s1 = (.ok [], s1) := rfl

theorem jss_searchBody_ok (u : String) (now : Nat) (jobs : List JSS.Job)
    (p : Nat) (s1 : JSS.State) :
    ∃ s2 : JSS.State, JSS.searchBody u now (.ok jobs) p s1 = (.ok jobs, s2) := by
  unfold JSS.searchBody
  cases hl : lookupTab u s1.userTabs with
  | some t => exact ⟨_, rfl⟩
  | none => exact ⟨s1, rfl⟩

theorem c10_failures_absorbed (u : String) (now : Nat) (lk : Bool)
    (scrape : Except Unit (List JSS.Job)) (s : JSS.State) (hu : u ≠ "") :
    (∃ (jobs : List JSS.Job) (s2 : JSS.State),
        JSS.searchJobsNaukari u now lk scrape s = (.ok jobs, s2)) ∧
    (∀ e, JSS.getUserTab u now lk s = .error e →
        (JSS.searchJobsNaukari u now lk scrape s).1 = .ok []) ∧
    (scrape = .error () →
        (JSS.searchJobsNaukari u now lk scrape s).1 = .ok []) := by
  cases hg : JSS.getUserTab u now lk s with
  | error e =>
      refine ⟨⟨[], s, jss_search_acquireFail hu hg scrape⟩, ?_, ?_⟩
      · intro e2 _
        rw [jss_search_acquireFail hu hg scrape]
      · intro _
        rw [jss_search_acquireFail hu hg scrape]
  | ok ps =>
      obtain ⟨p, s1⟩ := ps
      cases scrape with
      | error e2 =>
          refine ⟨⟨[], s1, ?_⟩, ?_, ?_⟩
          · rw [jss_search_run hu hg, jss_searchBody_fail]
          · intro e he
            exact Except.noConfusion he
          · intro _
            rw [jss_search_run hu hg, jss_searchBody_fail]
      | ok jobs =>
          obtain ⟨s2, hs2⟩ := jss_searchBody_ok u now jobs p s1
          refine ⟨⟨jobs, s2, ?_⟩, ?_, ?_⟩
          · rw [jss_search_run hu hg, hs2]
          · intro e he
            exact Except.noConfusion he
          · intro hscr
            exact Except.noConfusion hscr

/-- Witness for c10_failures_absorbed: a failed scrape on emptyPoolState
for user-0001 resolves to the ok empty list. -/
theorem c10_failures_absorbed_witness :
    (∃ (jobs : List JSS.Job) (s2 : JSS.State),
        JSS.searchJobsNaukari "user-0001" 5 true (.error ()) emptyPoolState =
          (.ok jobs, s2)) ∧
    (∀ e, JSS.getUserTab "user-0001" 5 true emptyPoolState = .error e →
        (JSS.searchJobsNaukari "user-0001" 5 true (.error ()) emptyPoolState).1 =
          .ok []) ∧
    ((.error () : Except Unit (List JSS.Job)) = .error () →
        (JSS.searchJobsNaukari "user-0001" 5 true (.error ()) emptyPoolState).1 =
          .ok []) :=
  c10_failures_absorbed "user-0001" 5 true (.error ()) emptyPoolState (by decide)

theorem jss_getUserTab_launchFail {s : JSS.State} {u : String} (hne : u ≠ "")
    (hb : s.browser = none) (now : Nat) :
    JSS.getUserTab u now false s = .error .launchError := by
  unfold JSS.getUserTab JSS.getBrowser JSS.initializeBrowser
  rw [hb]
  simp [hne]

theorem jss_getUserTab_launch {s : JSS.State} {u : String} (hne : u ≠ "")
    (hb : s.browser = none) (now : Nat) :
    JSS.getUserTab u now true s =
      JSS.getUserTab u now true
        { s with browser := some s.nextBrowser, nextBrowser := s.nextBrowser + 1, launchCount := s.launchCount + 1 } := by
  unfold JSS.getUserTab JSS.getBrowser JSS.initializeBrowser
  rw [hb]
  simp [hne]

theorem jss_getUserTab_nodup_aux {s : JSS.State} {u : String} {g now : Nat}
    {lk : Bool} {p : Nat} {s2 : JSS.State} (hne : u ≠ "")
    (hb : s.browser = some g) (hnd : nodupKeys s.userTabs)
    (hok : JSS.getUserTab u now lk s = .ok (p, s2)) : nodupKeys s2.userTabs := by
  cases hlk : lookupTab u s.userTabs with
  | some t =>
      by_cases hc : t.page ∈ s.closedPages
      · rw [jss_getUserTab_create_stale hne hb hlk hc now lk] at hok
        injection hok with h2
        injection h2 with h3 h4
        rw [← h4]
        exact nodupKeys_setTab (nodupKeys_eraseTab hnd)
      · rw [jss_getUserTab_reuse hne hb hlk hc now lk] at hok
        injection hok with h2
        injection h2 with h3 h4
        rw [← h4]
        exact nodupKeys_setTab hnd
  | none =>
      rw [jss_getUserTab_create_none hne hb hlk now lk] at hok
      injection hok with h2
      injection h2 with h3 h4
      rw [← h4]
      exact nodupKeys_setTab hnd

theorem jss_closeMany_nodup (l : List String) :
    ∀ s : JSS.State, nodupKeys s.userTabs →
      nodupKeys (JSS.closeMany l s).userTabs := by
  induction l with
  | nil => intro s h; exact h
  | cons v rest ih =>
      intro s h
      rw [jss_closeMany_cons]
      apply ih
      rw [(jss_close_fields v s).2.2.2.2]
      exact nodupKeys_eraseTab h

theorem tm_closeMany_nodup (l : List String) :
    ∀ s : TM.State, nodupKeys s.userTabs →
      nodupKeys (TM.closeMany l s).userTabs := by
  induction l with
  | nil => intro s h; exact h
  | cons v rest ih =>
      intro s h
      rw [tm_closeMany_cons]
      apply ih
      rw [(tm_close_fields v s).2.2]
      exact nodupKeys_eraseTab h

theorem tm_createUserTab_relaunch2 {s : TM.State} {u : String}
    (hb : s.bm.browser = none) (now : Nat) :
    TM.createUserTab u now true s =
      .ok (s.nextPage,
        { bm := { browser := some s.bm.nextBrowser
                  nextBrowser := s.bm.nextBrowser + 1
                  launchCount := s.bm.launchCount + 1 }
          nextPage := s.nextPage + 1
          closedPages := (TM.closeUserTab u s).closedPages
          userTabs := setTab u { page := s.nextPage, gen := s.bm.nextBrowser, lastUsed := now }
                        (eraseTab u s.userTabs) }) := by
  have h1 := (tm_close_fields u s).1
  have h2 := (tm_close_fields u s).2.1
  have h3 := (tm_close_fields u s).2.2
  unfold TM.createUserTab BM.getBrowser BM.initBrowser
  simp [h1, h2, h3, hb]

theorem tm_createUserTab_launchFail {s : TM.State} {u : String}
    (hb : s.bm.browser = none) (now : Nat) :
    TM.createUserTab u now false s = .error .launchError := by
  have h1 := (tm_close_fields u s).1
  unfold TM.createUserTab BM.getBrowser BM.initBrowser
  simp [h1, hb]

theorem tm_createUserTab_nodup {s : TM.State} {u : String} {now : Nat}
    {lk : Bool} {p : Nat} {s2 : TM.State} (hnd : nodupKeys s.userTabs)
    (hok : TM.createUserTab u now lk s = .ok (p, s2)) : nodupKeys s2.userTabs := by
  cases hb2 : s.bm.browser with
  | some g =>
      rw [tm_createUserTab_ready hb2 u now lk] at hok
      injection hok with h2
      injection h2 with h3 h4
      rw [← h4]
      exact nodupKeys_setTab (nodupKeys_eraseTab hnd)
  | none =>
      cases lk with
      | false =>
          rw [tm_createUserTab_launchFail hb2 now] at hok
          exact Except.noConfusion hok
      | true =>
          rw [tm_createUserTab_relaunch2 hb2 now] at hok
          injection hok with h2
          injection h2 with h3 h4
          rw [← h4]
          exact nodupKeys_setTab (nodupKeys_eraseTab hnd)

/-- Claim C8: pool invariants.  Every pool operation — getUserTab and
closeUserTab in both variants, createUserTab, and the cleanup sweeps —
preserves key uniqueness of the pool map (at most one entry per userId);
and a stale entry is removed before a replacement entry is created: in
JobScraperService.getUserTab the closed-page entry is deleted and the
result pool holds only the fresh entry (the stale pair is gone), and in
TabManager.createUserTab the existing page is closed and its pair removed
before the fresh entry is stored. -/
theorem c8_pool_invariant :
    (∀ (s : JSS.State) (u : String) (now : Nat) (lk : Bool) (p : Nat) (s2 : JSS.State),
        nodupKeys s.userTabs → JSS.getUserTab u now lk s = .ok (p, s2) →
        nodupKeys s2.userTabs) ∧
    (∀ (s : JSS.State) (u : String), nodupKeys s.userTabs →
        nodupKeys (JSS.closeUserTab u s).userTabs) ∧
    (∀ (s : JSS.State) (now : Nat), nodupKeys s.userTabs →
        nodupKeys (JSS.cleanupInactiveTabs now s).userTabs) ∧
    (∀ (s : TM.State) (u : String) (now : Nat) (lk : Bool) (p : Nat) (s2 : TM.State),
        nodupKeys s.userTabs → TM.getUserTab u now lk s = .ok (p, s2) →
        nodupKeys s2.userTabs) ∧
    (∀ (s : TM.State) (u : String) (now : Nat) (lk : Bool) (p : Nat) (s2 : TM.State),
        nodupKeys s.userTabs → TM.createUserTab u now lk s = .ok (p, s2) →
        nodupKeys s2.userTabs) ∧
    (∀ (s : TM.State) (u : String), nodupKeys s.userTabs →
        nodupKeys (TM.closeUserTab u s).userTabs) ∧
    (∀ (s : TM.State) (now : Nat), nodupKeys s.userTabs →
        nodupKeys (TM.cleanupInactiveTabs now s).userTabs) ∧
    (∀ (s : JSS.State) (u : String) (t : JSS.TabInfo) (g now : Nat),
        u ≠ "" → s.browser = some g → lookupTab u s.userTabs = some t →
        t.page ∈ s.closedPages → t.page ≠ s.nextPage →
        ∃ s2, JSS.getUserTab u now true s = .ok (s.nextPage, s2) ∧
          (u, t) ∉ s2.userTabs ∧
          lookupTab u s2.userTabs =
            some { page := s.nextPage, gen := g, lastUsed := now, createdAt := now }) ∧
    (∀ (s : TM.State) (u : String) (t : TM.TabInfo) (now : Nat),
        s.bm.browser = some t.gen → lookupTab u s.userTabs = some t →
        t.page ≠ s.nextPage →
        ∃ s2, TM.createUserTab u now true s = .ok (s.nextPage, s2) ∧
          (u, t) ∉ s2.userTabs ∧
          t.page ∈ s2.closedPages) := by
  refine ⟨?_, ?_, ?_, ?_, ?_, ?_, ?_, ?_, ?_⟩
  · intro s u now lk p s2 hnd hok
    by_cases hne : u = ""
    · rw [hne] at hok
      unfold JSS.getUserTab at hok
      simp at hok
    · cases hb : s.browser with
      | some g => exact jss_getUserTab_nodup_aux hne hb hnd hok
      | none =>
          cases lk with
          | false =>
              rw [jss_getUserTab_launchFail hne hb now] at hok
              exact Except.noConfusion hok
          | true =>
              rw [jss_getUserTab_launch hne hb now] at hok
              exact jss_getUserTab_nodup_aux
                (s := { s with browser := some s.nextBrowser, nextBrowser := s.nextBrowser + 1, launchCount := s.launchCount + 1 })
                hne rfl hnd hok
  · intro s u hnd
    rw [(jss_close_fields u s).2.2.2.2]
    exact nodupKeys_eraseTab hnd
  · intro s now hnd
    exact jss_closeMany_nodup _ s hnd
  · intro s u now lk p s2 hnd hok
    cases hlk : lookupTab u s.userTabs with
    | some t =>
        cases halive : TM.pageEvalOk s t with
        | true =>
            rw [tm_getUserTab_hit hlk halive now lk] at hok
            injection hok with h2
            injection h2 with h3 h4
            rw [← h4]
            exact nodupKeys_setTab hnd
        | false =>
            rw [tm_getUserTab_dead hlk halive now lk] at hok
            exact tm_createUserTab_nodup (nodupKeys_eraseTab hnd) hok
    | none =>
        rw [tm_getUserTab_miss hlk now lk] at hok
        exact tm_createUserTab_nodup hnd hok
  · intro s u now lk p s2 hnd hok
    exact tm_createUserTab_nodup hnd hok
  · intro s u hnd
    rw [(tm_close_fields u s).2.2]
    exact nodupKeys_eraseTab hnd
  · intro s now hnd
    exact tm_closeMany_nodup _ s hnd
  · intro s u t g now hne hb hlk hc hneq
    refine ⟨_, jss_getUserTab_create_stale hne hb hlk hc now true, ?_, ?_⟩
    · intro hmem
      have hmem2 : (u, t) ∈
          setTab u { page := s.nextPage, gen := g, lastUsed := now, createdAt := now }
            (eraseTab u s.userTabs) := hmem
      rcases mem_setTab hmem2 with ⟨_, heq⟩ | hmem3
      · exact hneq (congrArg JSS.TabInfo.page heq)
      · exact not_mem_eraseTab u t s.userTabs hmem3
    · exact lookupTab_setTab_self u _ _
  · intro s u t now hb hlk hneq
    refine ⟨_, tm_createUserTab_ready hb u now true, ?_, ?_⟩
    · intro hmem
      have hmem2 : (u, t) ∈
          setTab u { page := s.nextPage, gen := t.gen, lastUsed := now }
            (eraseTab u s.userTabs) := hmem
      rcases mem_setTab hmem2 with ⟨_, heq⟩ | hmem3
      · exact hneq (congrArg TM.TabInfo.page heq)
      · exact not_mem_eraseTab u t s.userTabs hmem3
    · exact tm_close_closes hlk hb

/-- Witness for c8_pool_invariant: key uniqueness after a close and after
a sweep, and the stale-purge path on jssStaleTab — the closed page-0 entry
is gone and only the fresh page-1 entry remains. -/
theorem c8_pool_invariant_witness :
    nodupKeys (JSS.closeUserTab "user-0001" jssOneTab).userTabs ∧
    nodupKeys (TM.cleanupInactiveTabs 3600011 tmOneTab).userTabs ∧
    (∃ s2, JSS.getUserTab "user-0001" 777 true jssStaleTab = .ok (1, s2) ∧
        ("user-0001", ({ page := 0, gen := 0, lastUsed := 10, createdAt := 10 } : JSS.TabInfo)) ∉ s2.userTabs ∧
        lookupTab "user-0001" s2.userTabs =
          some { page := 1, gen := 0, lastUsed := 777, createdAt := 777 }) :=
  ⟨c8_pool_invariant.2.1 jssOneTab "user-0001" (by unfold nodupKeys; decide),
   c8_pool_invariant.2.2.2.2.2.2.1 tmOneTab 3600011 (by unfold nodupKeys; decide),
   c8_pool_invariant.2.2.2.2.2.2.2.1 jssStaleTab "user-0001"
     { page := 0, gen := 0, lastUsed := 10, createdAt := 10 } 0 777
     (by decide) rfl (by decide) (by decide) (by decide)⟩

/-- Claim C4: any entry whose lastUsed stamp is older than the idle
threshold when the cleanup sweep runs is closed and removed from the pool,
and a subsequent acquire for that userId creates a fresh tab whose handle
is distinct from the reclaimed one.  Stated for both variants (30-minute
threshold in JobScraperService, 1-hour threshold in TabManager); the
freshness hypothesis `t.page < s.nextPage` is the allocation invariant of
the page counter. -/
theorem c4_idle_reclamation :
    (∀ (s : JSS.State) (u : String) (t : JSS.TabInfo) (now now2 : Nat),
        u ≠ "" → lookupTab u s.userTabs = some t →
        JSS.INACTIVE_TIMEOUT < now - t.lastUsed →
        s.browser = some t.gen → t.page < s.nextPage →
        lookupTab u (JSS.cleanupInactiveTabs now s).userTabs = none ∧
        t.page ∈ (JSS.cleanupInactiveTabs now s).closedPages ∧
        ∃ s2, JSS.getUserTab u now2 true (JSS.cleanupInactiveTabs now s) =
            .ok (s.nextPage, s2) ∧ s.nextPage ≠ t.page) ∧
    (∀ (s : TM.State) (u : String) (t : TM.TabInfo) (now now2 : Nat),
        lookupTab u s.userTabs = some t →
        TM.maxInactiveTime < now - t.lastUsed →
        s.bm.browser = some t.gen → t.page < s.nextPage →
        lookupTab u (TM.cleanupInactiveTabs now s).userTabs = none ∧
        t.page ∈ (TM.cleanupInactiveTabs now s).closedPages ∧
        ∃ s2, TM.getUserTab u now2 true (TM.cleanupInactiveTabs now s) =
            .ok (s.nextPage, s2) ∧ s.nextPage ≠ t.page) := by
  constructor
  · intro s u t now now2 hne ht hstale hb hlt
    obtain ⟨h1, h2⟩ := jss_cleanup_reclaims ht hstale hb
    refine ⟨h1, h2, ?_⟩
    have hb2 : (JSS.cleanupInactiveTabs now s).browser = some t.gen := by
      rw [jss_cleanup_browser]
      exact hb
    have hcr := jss_getUserTab_create_none hne hb2 h1 now2 true
    rw [jss_cleanup_nextPage] at hcr
    exact ⟨_, hcr, by omega⟩
  · intro s u t now now2 ht hstale hb hlt
    obtain ⟨h1, h2⟩ := tm_cleanup_reclaims ht hstale hb
    refine ⟨h1, h2, ?_⟩
    have hb2 : (TM.cleanupInactiveTabs now s).bm.browser = some t.gen := by
      rw [tm_cleanup_bm]
      exact hb
    have hmiss := tm_getUserTab_miss h1 now2 true
    have hcr := tm_createUserTab_ready hb2 u now2 true
    rw [hmiss, hcr, tm_cleanup_nextPage]
    exact ⟨_, rfl, by omega⟩

/-- Witness for c4_idle_reclamation: sweeping jssOneTab at 30 minutes and
11 ms past epoch reclaims the page-0 tab of user-0001 and the next acquire
yields the distinct page 1; likewise for tmOneTab at one hour and 11 ms. -/
theorem c4_idle_reclamation_witness :
    (lookupTab "user-0001" (JSS.cleanupInactiveTabs 1800011 jssOneTab).userTabs = none ∧
     (0 : Nat) ∈ (JSS.cleanupInactiveTabs 1800011 jssOneTab).closedPages ∧
     ∃ s2, JSS.getUserTab "user-0001" 1800099 true
         (JSS.cleanupInactiveTabs 1800011 jssOneTab) = .ok (1, s2) ∧ (1 : Nat) ≠ 0) ∧
    (lookupTab "user-0001" (TM.cleanupInactiveTabs 3600011 tmOneTab).userTabs = none ∧
     (0 : Nat) ∈ (TM.cleanupInactiveTabs 3600011 tmOneTab).closedPages ∧
     ∃ s2, TM.getUserTab "user-0001" 3600099 true
         (TM.cleanupInactiveTabs 3600011 tmOneTab) = .ok (1, s2) ∧ (1 : Nat) ≠ 0) :=
  ⟨c4_idle_reclamation.1 jssOneTab "user-0001"
      { page := 0, gen := 0, lastUsed := 10, createdAt := 10 } 1800011 1800099
      (by decide) (by decide) (by decide) rfl (by decide),
   c4_idle_reclamation.2 tmOneTab "user-0001"
      { page := 0, gen := 0, lastUsed := 10 } 3600011 3600099
      (by decide) (by decide) rfl (by decide)⟩

end SkillMint
